import Mathlib

/-!
Shallow embedding of `modules/aggregation/custom/alerting_dispatcher.py`:
the `AlertingDispatcher` class (its `run`, `_process_configuration` and
`_process_email_configuration` methods), together with models of its
external collaborators (`AlertQueue`, the SMTP `Dispatcher`, `os.linesep`
and Python's `str()` on configuration values), and theorems about the
validation, rendering, dispatch and requeue-on-failure behaviour.
-/

namespace AlertingDispatcher

/-- A Python value as it appears in a parsed configuration mapping:
the dynamic types the dispatcher inspects with `type(x) is str`,
`type(x) is int`, `type(x) is dict`, `type(x) is list`.  `bool` is kept
separate from `int` because in Python `type(True) is int` is `False`. -/
inductive Value where
  | str (s : String)
  | int (n : Int)
  | bool (b : Bool)
  | list (xs : List Value)
  | dict (xs : List (String × Value))
  | none

/-- A configuration mapping (Python `dict` with string keys), as an
association list in insertion order. -/
abbrev Config := List (String × Value)

/-- First-match lookup in an association list: Python `d[k]` for a dict
with unique keys. -/
def lookup_key {α : Type} : List (String × α) → String → Option α
  | [], _ => Option.none
  | (k', v) :: rest, k => if k' = k then some v else lookup_key rest k

/-- Python `k in d and type(d[k]) is str`, returning the string. -/
def getStr (c : Config) (k : String) : Option String :=
  match lookup_key c k with
  | some (Value.str s) => some s
  | _ => Option.none

/-- Python `k in d and type(d[k]) is int`, returning the integer. -/
def getInt (c : Config) (k : String) : Option Int :=
  match lookup_key c k with
  | some (Value.int n) => some n
  | _ => Option.none

/-- Python `k in d and type(d[k]) is dict`, returning the mapping. -/
def getDict (c : Config) (k : String) : Option Config :=
  match lookup_key c k with
  | some (Value.dict d) => some d
  | _ => Option.none

/-- Python `k in d and type(d[k]) is list`, returning the list. -/
def getList (c : Config) (k : String) : Option (List Value) :=
  match lookup_key c k with
  | some (Value.list l) => some l
  | _ => Option.none

/-- Python `'toEmail' in c and (type(c['toEmail']) is str or
type(c['toEmail']) is list)`, keeping the value (string or list). -/
def get_to_email (c : Config) : Option Value :=
  match lookup_key c "toEmail" with
  | some (Value.str s) => some (Value.str s)
  | some (Value.list l) => some (Value.list l)
  | _ => Option.none

/-- Modelled from the spec: an `AlertRecord` held by the external
`service.alerting.Alert` class — {id, group, timestamp, message, data}.
`date` is the alert's timestamp; `alert.date.isoformat()` is modelled by
storing the ISO-8601 rendering directly. -/
structure Alert where
  id : Nat
  group : String
  date : String
  message : String
  data : Value

/-- The exceptions of the module: `ConfigurationMissingError` and
`ConfigurationInvalidError` from `utilities.exceptions`, and the
module-private `_DataAlreadyExistError`. -/
inductive DispatchError where
  | configurationMissing (message : String)
  | configurationInvalid (message : String)
  | dataAlreadyExist
deriving DecidableEq

/-- The outcome of the scoped SMTP transport interaction: either the send
succeeds, or it raises a `ConnectionError` / `DispatcherException` whose
`str()` is the given message (the two exception types caught at the send
site). -/
inductive SendOutcome where
  | ok
  | delivery_error (message : String)

/-- The three send methods of the external `service.email.Dispatcher`. -/
inductive SendMode where
  | send_text_email
  | send_html_email
  | send_email
deriving DecidableEq

/-- A value stored in the template-variables mapping handed to the
transport: either a configuration value, or the fetched alert list that
`_process_email_configuration` injects under the key `alerts`. -/
inductive TemplateValue where
  | val (v : Value)
  | alertList (alerts : List Alert)

/-- The typed result of the validation part of
`_process_email_configuration` (lines 54-120): the local variables it has
bound once every raising check has passed. -/
structure EmailSettings where
  host : String
  port : Int
  user : String
  password : String
  encryption : Option String
  subject : String
  fromEmail : String
  toEmail : Value
  templateHtml : Option String
  templateText : Option String
  templateVariables : Config
  groups : List Value

/-- Modelled from the spec: membership of an alert's group in a rule's
`groups` list, as used by `AlertQueue.fetch_alerts` ("all pending alerts
whose group is in `groups`"). Non-string entries match no group. -/
def group_member (groups : List Value) (g : String) : Bool :=
  groups.any (fun w => match w with
    | Value.str s => s == g
    | _ => false)

/-- Modelled from the spec: `AlertQueue.fetch_alerts(groups)` of the
external `service.alerting.AlertQueue` — returns and removes all pending
alerts whose group is in `groups`, in store order.  The pair is
(fetched alerts, remaining store). -/
def fetch_alerts (groups : List Value) (store : List Alert) :
    List Alert × List Alert :=
  (store.filter (fun a => group_member groups a.group),
   store.filter (fun a => ! group_member groups a.group))

/-- Modelled from the spec: `AlertQueue.add_alerts(alerts)` — reinserts
previously fetched alerts into the store, preserving identity and
content, as a single all-or-nothing call. -/
def add_alerts (alerts : List Alert) (store : List Alert) : List Alert :=
  store ++ alerts

/-- Python dict assignment `d[k] = x`: replaces the value at an existing
key in place, otherwise appends the new entry. -/
def set_key : List (String × TemplateValue) → String → TemplateValue →
    List (String × TemplateValue)
  | [], k, x => [(k, x)]
  | (k', v) :: rest, k, x =>
      if k' = k then (k, x) :: rest else (k', v) :: set_key rest k x

/-- Modelled from the spec: Python's builtin `str()` applied to an alert's
`data` value (CPython `repr`-style rendering of dicts, lists, strings,
ints, booleans and `None`). Only its output for non-empty dicts reaches
the log file; its exact text is opaque to the dispatcher. -/
def pyRepr : Value → String
  | Value.str s => "'" ++ s ++ "'"
  | Value.int n => toString n
  | Value.bool b => if b then "True" else "False"
  | Value.none => "None"
  | Value.list xs =>
      "[" ++ String.intercalate ", " (xs.attach.map (fun x => pyRepr x.1)) ++ "]"
  | Value.dict xs =>
      "\x7b" ++ String.intercalate ", "
        (xs.attach.map (fun x => "'" ++ x.1.1 ++ "': " ++ pyRepr x.1.2)) ++ "\x7d"
decreasing_by
  all_goals simp_wf
  · have h1 := List.sizeOf_lt_of_mem x.2
    omega
  · obtain ⟨⟨a, b⟩, hmem⟩ := x
    have h1 := List.sizeOf_lt_of_mem hmem
    simp only [Prod.mk.sizeOf_spec] at h1
    simp only []
    omega

/-- One line of the attachment log, built in the loop body of lines
128-137: `'[' + alert.date.isoformat() + '] ' + alert.message`, plus
`' | ' + str(alert.data)` when `type(alert.data) is dict and
0 < len(alert.data)`. -/
def render_log_item (alert : Alert) : String :=
  let log_item := "[" ++ alert.date ++ "] " ++ alert.message
  match alert.data with
  | Value.dict d => if 0 < d.length then log_item ++ " | " ++ pyRepr alert.data else log_item
  | _ => log_item

/-- The full content written to the temporary log file (lines 127-140):
each line followed by `os.linesep`, given here as `sep`. -/
def render_log (sep : String) (alerts : List Alert) : String :=
  alerts.foldl (fun acc alert => acc ++ render_log_item alert ++ sep) ""

/-- One invocation of a `Dispatcher` send method: the arguments of the
`send_text_email` / `send_html_email` / `send_email` call at lines
144-170, with the attachment mapping `{'alerts.log': log_file.name}`
represented by the attachment's display name and the content written to
the temporary file. -/
structure SendCall where
  from_email : String
  to_email : Value
  subject : String
  template_html : Option String
  template_text : Option String
  mode : SendMode
  template_variables : List (String × TemplateValue)
  attachment_name : String
  attachment_content : String

/-- An observable interaction with the external collaborators: a store
fetch, a transport send attempt, or a store requeue. -/
inductive Event where
  | fetch (groups : List Value) (result : List Alert)
  | send (call : SendCall)
  | requeue (alerts : List Alert)

/-- The validation prefix of `_process_email_configuration` (lines
54-120): every raising check, in source order, and the local variables it
binds.  Mirrors the source's `if ... else raise` chain as nested matches;
the `raise` branches are the `Except.error` results. -/
def validate_email_configuration (c : Config) : Except DispatchError EmailSettings :=
  match getDict c "smtp" with
  | Option.none => Except.error (DispatchError.configurationMissing "Missing smtp configuration")
  | some smtp_configuration =>
  match getStr smtp_configuration "host" with
  | Option.none => Except.error (DispatchError.configurationMissing "Missing host in alert mail smtp configuration")
  | some host =>
  match getInt smtp_configuration "port" with
  | Option.none => Except.error (DispatchError.configurationMissing "Missing port in alert mail smtp configuration")
  | some port =>
  match getStr smtp_configuration "user" with
  | Option.none => Except.error (DispatchError.configurationMissing "Missing user in alert mail smtp configuration")
  | some user =>
  match getStr smtp_configuration "password" with
  | Option.none => Except.error (DispatchError.configurationMissing "Missing user in alert mail smtp configuration")
  | some password =>
  let encryption := getStr smtp_configuration "encryption"
  match getStr c "subject" with
  | Option.none => Except.error (DispatchError.configurationMissing "Missing subject in alert configuration")
  | some subject =>
  match getStr c "fromEmail" with
  | Option.none => Except.error (DispatchError.configurationMissing "Missing from email in alert configuration")
  | some from_email =>
  match get_to_email c with
  | Option.none => Except.error (DispatchError.configurationMissing "Missing to email in alert configuration")
  | some to_email =>
  let template_html_path := getStr c "templateHtml"
  let template_text_path := getStr c "templateText"
  if template_html_path = Option.none ∧ template_text_path = Option.none then
    Except.error (DispatchError.configurationMissing "You at least have to provide a html or text email template")
  else
  let template_variables := (getDict c "templateVariables").getD []
  match getList c "groups" with
  | Option.none => Except.error (DispatchError.configurationMissing "Missing groups to fetch alerts for")
  | some groups =>
    Except.ok ⟨host, port, user, password, encryption, subject, from_email, to_email,
      template_html_path, template_text_path, template_variables, groups⟩

/-- `_process_email_configuration`: validation, then
`alert_queue.fetch_alerts(groups)`; on a non-empty batch, injection of
the `alerts` template variable, rendering of the log file, the send
matching the template-availability branch, and on a caught
`ConnectionError` / `DispatcherException` the compensating
`alert_queue.add_alerts(alerts)` followed by `raise
ConfigurationInvalidError(str(error))`.  Returns (outcome, final store,
collaborator events). -/
def process_email_configuration (sep : String) (transport : SendOutcome)
    (configuration : Config) (store : List Alert) :
    Except DispatchError Unit × List Alert × List Event :=
  match validate_email_configuration configuration with
  | Except.error e => (Except.error e, store, [])
  | Except.ok v =>
    let alerts := (fetch_alerts v.groups store).1
    let store1 := (fetch_alerts v.groups store).2
    if 0 < alerts.length then
      let template_variables :=
        set_key (v.templateVariables.map (fun p => (p.1, TemplateValue.val p.2)))
          "alerts" (TemplateValue.alertList alerts)
      let mode :=
        if v.templateHtml = Option.none then SendMode.send_text_email
        else if v.templateText = Option.none then SendMode.send_html_email
        else SendMode.send_email
      let call : SendCall :=
        ⟨v.fromEmail, v.toEmail, v.subject, v.templateHtml, v.templateText,
         mode, template_variables, "alerts.log", render_log sep alerts⟩
      match transport with
      | SendOutcome.ok =>
          (Except.ok (), store1, [Event.fetch v.groups alerts, Event.send call])
      | SendOutcome.delivery_error message =>
          (Except.error (DispatchError.configurationInvalid message),
           add_alerts alerts store1,
           [Event.fetch v.groups alerts, Event.send call, Event.requeue alerts])
    else
      (Except.ok (), store1, [Event.fetch v.groups alerts])

/-- `_process_configuration` (lines 43-52): the `type` field is read
first; missing or non-string raises `ConfigurationMissingError`, a string
other than `"email"` raises `ConfigurationInvalidError`, and `"email"`
dispatches to `_process_email_configuration`. -/
def process_configuration (sep : String) (transport : SendOutcome)
    (configuration : Config) (store : List Alert) :
    Except DispatchError Unit × List Alert × List Event :=
  match getStr configuration "type" with
  | Option.none =>
      (Except.error (DispatchError.configurationMissing "Missing \"type\" for alert dispatch configuration"),
       store, [])
  | some alert_type =>
      if alert_type = "email" then process_email_configuration sep transport configuration store
      else
        (Except.error (DispatchError.configurationInvalid ("Invalid alert type \"" ++ alert_type ++ "\"")),
         store, [])

/-- The per-rule line printed by `run`: `' - OK'` or `' - EXISTS'`. -/
inductive RuleOutcome where
  | OK
  | EXISTS
deriving DecidableEq

/-- The rule loop of `run` (lines 32-39): each configuration is processed
in order; success prints OK, a caught `_DataAlreadyExistError` prints
EXISTS and continues, and any other exception propagates out of `run`,
aborting the remaining rules. -/
def run_rules (sep : String) (transport : SendOutcome) :
    List Config → List Alert → Except DispatchError (List RuleOutcome × List Alert)
  | [], store => Except.ok ([], store)
  | c :: cs, store =>
    match process_configuration sep transport c store with
    | (Except.ok _, store1, _) =>
      match run_rules sep transport cs store1 with
      | Except.ok (outs, store2) => Except.ok (RuleOutcome.OK :: outs, store2)
      | Except.error e => Except.error e
    | (Except.error DispatchError.dataAlreadyExist, store1, _) =>
      match run_rules sep transport cs store1 with
      | Except.ok (outs, store2) => Except.ok (RuleOutcome.EXISTS :: outs, store2)
      | Except.error e => Except.error e
    | (Except.error e, _, _) => Except.error e

/-- The transport send attempts recorded in an event list, in order. -/
def send_calls (events : List Event) : List SendCall :=
  events.filterMap (fun e => match e with
    | Event.send call => some call
    | _ => Option.none)

/-- The alert batches passed to `add_alerts` in an event list, in order. -/
def requeued_batches (events : List Event) : List (List Alert) :=
  events.filterMap (fun e => match e with
    | Event.requeue alerts => some alerts
    | _ => Option.none)

/-- Modelled from the spec: the renderer appends ` | <data>` "when `data`
is a non-empty mapping". -/
def data_is_nonempty_mapping : Value → Bool
  | Value.dict d => ! d.isEmpty
  | _ => false

/-! ### Test fixtures: concrete configurations, alerts and stores -/

/-- A complete smtp section. -/
def smtp1 : Config :=
  [("host", Value.str "smtp.example.com"), ("port", Value.int 587),
   ("user", Value.str "mailuser"), ("password", Value.str "secret")]

/-- A fully valid email rule with both templates, a prior `alerts`
template variable, and groups `["g1"]`. -/
def cfg1 : Config :=
  [("type", Value.str "email"), ("smtp", Value.dict smtp1),
   ("subject", Value.str "Alerts"), ("fromEmail", Value.str "from@example.com"),
   ("toEmail", Value.str "to@example.com"),
   ("templateHtml", Value.str "alert.html"), ("templateText", Value.str "alert.txt"),
   ("templateVariables", Value.dict [("alerts", Value.str "stale"), ("x", Value.int 5)]),
   ("groups", Value.list [Value.str "g1"])]

/-- The settings `_process_email_configuration` binds for `cfg1`. -/
def settings1 : EmailSettings :=
  ⟨"smtp.example.com", 587, "mailuser", "secret", Option.none, "Alerts",
   "from@example.com", Value.str "to@example.com", some "alert.html", some "alert.txt",
   [("alerts", Value.str "stale"), ("x", Value.int 5)], [Value.str "g1"]⟩

/-- Like `cfg1`, but with the `subject` field absent (the later fields
`fromEmail`, `toEmail`, `templateText`, `groups` are all present). -/
def cfg_no_subject : Config :=
  [("type", Value.str "email"), ("smtp", Value.dict smtp1),
   ("fromEmail", Value.str "from@example.com"), ("toEmail", Value.str "to@example.com"),
   ("templateText", Value.str "alert.txt"), ("groups", Value.list [Value.str "g1"])]

def alert1 : Alert := ⟨1, "g1", "2024-01-01T00:00:00", "m1", Value.dict []⟩
def alert2 : Alert := ⟨2, "g1", "2024-01-02T00:00:00", "m2", Value.dict [("k", Value.str "v")]⟩
def alert3 : Alert := ⟨3, "g2", "2024-01-03T00:00:00", "m3", Value.none⟩

/-- A store with two pending alerts in group `g1` and one in `g2`. -/
def store1 : List Alert := [alert1, alert2, alert3]

/-! ### Shared lemmas -/

/-- Every error of the email validation chain is a
`ConfigurationMissingError`. -/
theorem validate_error_missing (c : Config) (e : DispatchError)
    (h : validate_email_configuration c = Except.error e) :
    ∃ m, e = DispatchError.configurationMissing m := by
  unfold validate_email_configuration at h
  repeat' split at h
  all_goals try dsimp only at h
  all_goals repeat' split at h
  all_goals first
    | (injection h with h2; exact ⟨_, h2.symm⟩)
    | injection h

theorem join_cons (x : String) (l : List String) :
    String.join (x :: l) = x ++ String.join l := by
  apply String.ext
  simp [String.join_eq]

theorem foldl_append_string (f : Alert → String) (alerts : List Alert) :
    ∀ acc : String, alerts.foldl (fun acc a => acc ++ f a) acc
      = acc ++ String.join (alerts.map f) := by
  induction alerts with
  | nil => intro acc; apply String.ext; simp [String.join_eq]
  | cons a rest ih =>
      intro acc
      simp only [List.foldl_cons, List.map_cons, join_cons, ih]
      apply String.ext
      simp

/-- The loop-and-write rendering of the log file equals the line-per-alert
concatenation. -/
theorem render_log_eq_join (sep : String) (alerts : List Alert) :
    render_log sep alerts
      = String.join (alerts.map (fun a => render_log_item a ++ sep)) := by
  unfold render_log
  rw [show (fun (acc : String) (alert : Alert) => acc ++ render_log_item alert ++ sep)
        = fun (acc : String) (alert : Alert) => acc ++ (render_log_item alert ++ sep) by
      funext acc alert
      apply String.ext
      simp]
  rw [foldl_append_string (fun a => render_log_item a ++ sep) alerts ""]
  apply String.ext
  simp

/-- A rendered log line in the form the spec states it. -/
theorem render_log_item_eq (a : Alert) :
    render_log_item a
      = "[" ++ a.date ++ "] " ++ a.message
        ++ (if data_is_nonempty_mapping a.data then " | " ++ pyRepr a.data else "") := by
  unfold render_log_item
  cases hd : a.data
  case dict d =>
    cases d with
    | nil => simp [data_is_nonempty_mapping, String.append_empty, String.append_assoc]
    | cons p rest => simp [data_is_nonempty_mapping, String.append_assoc]
  all_goals simp [data_is_nonempty_mapping, String.append_empty, String.append_assoc]

/-- Setting a key makes it look up to the new value. -/
theorem lookup_set_key_self (m : List (String × TemplateValue)) (k : String)
    (x : TemplateValue) : lookup_key (set_key m k x) k = some x := by
  induction m with
  | nil => simp [set_key, lookup_key]
  | cons p rest ih =>
      obtain ⟨k0, v⟩ := p
      by_cases h : k0 = k <;> simp [set_key, lookup_key, h, ih]

/-- Setting a key leaves every other key's lookup unchanged. -/
theorem lookup_set_key_other (m : List (String × TemplateValue)) (k k' : String)
    (x : TemplateValue) (h : k' ≠ k) :
    lookup_key (set_key m k x) k' = lookup_key m k' := by
  induction m with
  | nil => simp [set_key, lookup_key, Ne.symm h]
  | cons p rest ih =>
      obtain ⟨k0, v⟩ := p
      by_cases h0 : k0 = k <;> simp [set_key, lookup_key, h0, ih] <;>
        simp [Ne.symm h, lookup_key]

/-- Wrapping every configured variable in `TemplateValue.val` commutes
with lookup. -/
theorem lookup_map_val (m : Config) (k : String) :
    lookup_key (m.map (fun p => (p.1, TemplateValue.val p.2))) k
      = (lookup_key m k).map TemplateValue.val := by
  induction m with
  | nil => simp [lookup_key]
  | cons p rest ih => by_cases h : p.1 = k <;> simp [lookup_key, h, ih]

/-- Restoring the fetched alerts after the remainder yields a permutation
of the original store. -/
theorem fetch_then_requeue_perm (groups : List Value) (s : List Alert) :
    ((fetch_alerts groups s).2 ++ (fetch_alerts groups s).1).Perm s := by
  unfold fetch_alerts
  exact (List.perm_append_comm).trans (List.filter_append_perm _ s)

/-! ### Claim theorems -/

/-- C1: for every email rule that passes validation and fetches a
non-empty alert batch, a connection-level or protocol-level delivery
error makes `_process_email_configuration` requeue all fetched alerts in
a single all-or-nothing `add_alerts` call — the final store is a
permutation of the original store, and the one requeued batch is exactly
the fetched batch — and then raise `ConfigurationInvalidError` carrying
the underlying cause's message. -/
theorem email_delivery_failure_restores_queue (sep msg : String) (c : Config)
    (s : List Alert) (v : EmailSettings)
    (hv : validate_email_configuration c = Except.ok v)
    (hne : (fetch_alerts v.groups s).1 ≠ []) :
    (process_email_configuration sep (SendOutcome.delivery_error msg) c s).1
        = Except.error (DispatchError.configurationInvalid msg)
    ∧ ((process_email_configuration sep (SendOutcome.delivery_error msg) c s).2.1).Perm s
    ∧ requeued_batches
        (process_email_configuration sep (SendOutcome.delivery_error msg) c s).2.2
        = [(fetch_alerts v.groups s).1] := by
  have hlen : 0 < ((fetch_alerts v.groups s).1).length := List.length_pos.mpr hne
  refine ⟨?_, ?_, ?_⟩ <;>
    simp only [process_email_configuration, hv, hlen, if_true, add_alerts,
      requeued_batches, List.filterMap]
  exact fetch_then_requeue_perm v.groups s

theorem email_delivery_failure_restores_queue_witness :
    ((process_email_configuration "\n" (SendOutcome.delivery_error "connection refused") cfg1 store1).1
        = Except.error (DispatchError.configurationInvalid "connection refused"))
    ∧ ((process_email_configuration "\n" (SendOutcome.delivery_error "connection refused") cfg1 store1).2.1).Perm store1
    ∧ requeued_batches
        (process_email_configuration "\n" (SendOutcome.delivery_error "connection refused") cfg1 store1).2.2
        = [(fetch_alerts settings1.groups store1).1] :=
  email_delivery_failure_restores_queue "\n" "connection refused" cfg1 store1 settings1 rfl
    (by rw [show (fetch_alerts settings1.groups store1).1 = [alert1, alert2] from rfl]; simp)

/-- The required email fields, in the validation order the spec states:
smtp section (host, port, user, password) → subject → fromEmail →
toEmail → template(s) → groups. -/
inductive EmailField where
  | smtp
  | host
  | port
  | user
  | password
  | subject
  | fromEmail
  | toEmail
  | template
  | groups
deriving DecidableEq

/-- Modelled from the spec: the first required email field found missing
or mistyped, walking the fields in the spec's fixed validation order. -/
def first_missing_email_field (c : Config) : Option EmailField :=
  match getDict c "smtp" with
  | Option.none => some EmailField.smtp
  | some smtp =>
    if (getStr smtp "host").isNone then some EmailField.host
    else if (getInt smtp "port").isNone then some EmailField.port
    else if (getStr smtp "user").isNone then some EmailField.user
    else if (getStr smtp "password").isNone then some EmailField.password
    else if (getStr c "subject").isNone then some EmailField.subject
    else if (getStr c "fromEmail").isNone then some EmailField.fromEmail
    else if (get_to_email c).isNone then some EmailField.toEmail
    else if (getStr c "templateHtml").isNone && (getStr c "templateText").isNone then
      some EmailField.template
    else if (getList c "groups").isNone then some EmailField.groups
    else Option.none

/-- The error the source raises for each failing field. -/
def email_field_error : EmailField → DispatchError
  | EmailField.smtp => DispatchError.configurationMissing "Missing smtp configuration"
  | EmailField.host => DispatchError.configurationMissing "Missing host in alert mail smtp configuration"
  | EmailField.port => DispatchError.configurationMissing "Missing port in alert mail smtp configuration"
  | EmailField.user => DispatchError.configurationMissing "Missing user in alert mail smtp configuration"
  | EmailField.password => DispatchError.configurationMissing "Missing user in alert mail smtp configuration"
  | EmailField.subject => DispatchError.configurationMissing "Missing subject in alert configuration"
  | EmailField.fromEmail => DispatchError.configurationMissing "Missing from email in alert configuration"
  | EmailField.toEmail => DispatchError.configurationMissing "Missing to email in alert configuration"
  | EmailField.template => DispatchError.configurationMissing "You at least have to provide a html or text email template"
  | EmailField.groups => DispatchError.configurationMissing "Missing groups to fetch alerts for"

/-- C2: the required email fields are validated in the fixed order
smtp (host, port, user, password) → subject → fromEmail → toEmail →
template(s) → groups; validation succeeds exactly when no field is
missing or mistyped, the first failing field determines the error that
is raised (fail-fast, no accumulation), and on any validation error no
store fetch and no transport send occurs. -/
theorem email_validation_order (c : Config) :
    ((validate_email_configuration c).isOk ↔ first_missing_email_field c = Option.none)
    ∧ (∀ f, first_missing_email_field c = some f →
        validate_email_configuration c = Except.error (email_field_error f))
    ∧ (∀ e sep t s, validate_email_configuration c = Except.error e →
        process_email_configuration sep t c s = (Except.error e, s, [])) := by
  have main : ((validate_email_configuration c).isOk
        ↔ first_missing_email_field c = Option.none)
      ∧ (∀ f, first_missing_email_field c = some f →
          validate_email_configuration c = Except.error (email_field_error f)) := by
    unfold validate_email_configuration first_missing_email_field
    cases hsmtp : getDict c "smtp" with
    | none => simp [hsmtp, email_field_error, Except.isOk, Except.toBool]
    | some smtp =>
    cases hhost : getStr smtp "host" with
    | none => simp [hsmtp, hhost, email_field_error, Except.isOk, Except.toBool]
    | some host =>
    cases hport : getInt smtp "port" with
    | none => simp [hsmtp, hhost, hport, email_field_error, Except.isOk, Except.toBool]
    | some port =>
    cases huser : getStr smtp "user" with
    | none => simp [hsmtp, hhost, hport, huser, email_field_error, Except.isOk, Except.toBool]
    | some user =>
    cases hpwd : getStr smtp "password" with
    | none => simp [hsmtp, hhost, hport, huser, hpwd, email_field_error, Except.isOk, Except.toBool]
    | some password =>
    cases hsub : getStr c "subject" with
    | none => simp [hsmtp, hhost, hport, huser, hpwd, hsub, email_field_error, Except.isOk, Except.toBool]
    | some subject =>
    cases hfrom : getStr c "fromEmail" with
    | none => simp [hsmtp, hhost, hport, huser, hpwd, hsub, hfrom, email_field_error, Except.isOk, Except.toBool]
    | some from_email =>
    cases hto : get_to_email c with
    | none => simp [hsmtp, hhost, hport, huser, hpwd, hsub, hfrom, hto, email_field_error, Except.isOk, Except.toBool]
    | some to_email =>
    cases hhtml : getStr c "templateHtml" with
    | none =>
      cases htext : getStr c "templateText" with
      | none => simp [hsmtp, hhost, hport, huser, hpwd, hsub, hfrom, hto, hhtml, htext,
          email_field_error, Except.isOk, Except.toBool]
      | some text_path =>
        cases hgrp : getList c "groups" with
        | none => simp [hsmtp, hhost, hport, huser, hpwd, hsub, hfrom, hto, hhtml, htext, hgrp,
            email_field_error, Except.isOk, Except.toBool]
        | some groups => simp [hsmtp, hhost, hport, huser, hpwd, hsub, hfrom, hto, hhtml, htext, hgrp,
            email_field_error, Except.isOk, Except.toBool]
    | some html_path =>
      cases hgrp : getList c "groups" with
      | none => simp [hsmtp, hhost, hport, huser, hpwd, hsub, hfrom, hto, hhtml, hgrp,
          email_field_error, Except.isOk, Except.toBool]
      | some groups => simp [hsmtp, hhost, hport, huser, hpwd, hsub, hfrom, hto, hhtml, hgrp,
          email_field_error, Except.isOk, Except.toBool]
  refine ⟨main.1, main.2, ?_⟩
  intro e sep t s h
  simp [process_email_configuration, h]

theorem email_validation_order_witness :
    first_missing_email_field cfg_no_subject = some EmailField.subject
    ∧ validate_email_configuration cfg_no_subject
        = Except.error (email_field_error EmailField.subject)
    ∧ process_email_configuration "\n" SendOutcome.ok cfg_no_subject store1
        = (Except.error (email_field_error EmailField.subject), store1, []) :=
  ⟨rfl,
   (email_validation_order cfg_no_subject).2.1 EmailField.subject rfl,
   (email_validation_order cfg_no_subject).2.2 (email_field_error EmailField.subject)
     "\n" SendOutcome.ok store1
     ((email_validation_order cfg_no_subject).2.1 EmailField.subject rfl)⟩

/-- An smtp section with host, port and user present and only `password`
absent. -/
def smtp_no_password : Config :=
  [("host", Value.str "smtp.example.com"), ("port", Value.int 587),
   ("user", Value.str "mailuser")]

/-- Like `cfg1`, but the smtp section lacks only the password. -/
def cfg_no_password : Config :=
  [("type", Value.str "email"), ("smtp", Value.dict smtp_no_password),
   ("subject", Value.str "Alerts"), ("fromEmail", Value.str "from@example.com"),
   ("toEmail", Value.str "to@example.com"), ("templateText", Value.str "alert.txt"),
   ("groups", Value.list [Value.str "g1"])]

/-- C3: evaluation of the code at the failing input — in a rule whose
only absent required field is the smtp `password`, validation raises a
`ConfigurationMissingError` whose message names the *user* field
("Missing user in alert mail smtp configuration"), not the password
field, though no store or transport call occurs.  The password branch of
the source (line 79) reuses the user branch's message. -/
theorem missing_password_reports_user_message :
    (lookup_key smtp_no_password "user" = some (Value.str "mailuser")
      ∧ lookup_key smtp_no_password "password" = Option.none)
    ∧ validate_email_configuration cfg_no_password
        = Except.error (DispatchError.configurationMissing
            "Missing user in alert mail smtp configuration")
    ∧ (∀ sep t s, process_email_configuration sep t cfg_no_password s
        = (Except.error (DispatchError.configurationMissing
            "Missing user in alert mail smtp configuration"), s, [])) := by
  have hval : validate_email_configuration cfg_no_password
      = Except.error (DispatchError.configurationMissing
          "Missing user in alert mail smtp configuration") := rfl
  exact ⟨⟨rfl, rfl⟩, hval, fun sep t s => by simp [process_email_configuration, hval]⟩

/-- Like `cfg1`, but with `groups` the empty list. -/
def cfg_empty_groups : Config :=
  [("type", Value.str "email"), ("smtp", Value.dict smtp1),
   ("subject", Value.str "Alerts"), ("fromEmail", Value.str "from@example.com"),
   ("toEmail", Value.str "to@example.com"),
   ("templateHtml", Value.str "alert.html"), ("templateText", Value.str "alert.txt"),
   ("templateVariables", Value.dict [("alerts", Value.str "stale"), ("x", Value.int 5)]),
   ("groups", Value.list [])]

/-- The settings `_process_email_configuration` binds for
`cfg_empty_groups`. -/
def settings_empty_groups : EmailSettings :=
  ⟨"smtp.example.com", 587, "mailuser", "secret", Option.none, "Alerts",
   "from@example.com", Value.str "to@example.com", some "alert.html", some "alert.txt",
   [("alerts", Value.str "stale"), ("x", Value.int 5)], []⟩

/-- C4 counterexample: an email rule whose `groups` field is the empty
list is *accepted* by validation and proceeds to fetch alerts (a fetch
of the store occurs), refuting the claim that such a rule is rejected by
validation. -/
theorem empty_groups_accepted :
    validate_email_configuration cfg_empty_groups = Except.ok settings_empty_groups
    ∧ (process_email_configuration "\n" SendOutcome.ok cfg_empty_groups [alert1]).2.2
        = [Event.fetch [] []] :=
  ⟨rfl, rfl⟩

/-- C4 (amended): validation only requires `groups` to be a list, so an
email rule whose `groups` is the empty list passes validation and
proceeds to fetch alerts; the fetch returns no alerts, and the rule
completes as a no-op — OK outcome, store unchanged, no send, no
error. -/
theorem empty_groups_rule_is_noop (sep : String) (t : SendOutcome) (c : Config)
    (s : List Alert) (v : EmailSettings)
    (hv : validate_email_configuration c = Except.ok v) (hg : v.groups = []) :
    process_email_configuration sep t c s = (Except.ok (), s, [Event.fetch [] []]) := by
  simp [process_email_configuration, hv, hg, fetch_alerts, group_member]

theorem empty_groups_rule_is_noop_witness :
    process_email_configuration "\n" SendOutcome.ok cfg_empty_groups [alert1]
      = (Except.ok (), [alert1], [Event.fetch [] []]) :=
  empty_groups_rule_is_noop "\n" SendOutcome.ok cfg_empty_groups [alert1]
    settings_empty_groups rfl rfl

/-- Validation success records the template paths exactly as read from
the configuration, and never succeeds with both templates absent. -/
theorem validate_ok_templates (c : Config) (v : EmailSettings)
    (h : validate_email_configuration c = Except.ok v) :
    v.templateHtml = getStr c "templateHtml" ∧ v.templateText = getStr c "templateText"
    ∧ ¬(getStr c "templateHtml" = Option.none ∧ getStr c "templateText" = Option.none) := by
  unfold validate_email_configuration at h
  repeat' split at h
  all_goals try dsimp only at h
  all_goals repeat' split at h
  all_goals first
    | (injection h with h2; subst h2; exact ⟨rfl, rfl, by assumption⟩)
    | injection h

/-- C5: an email rule with both `templateHtml` and `templateText` absent
fails validation with a `ConfigurationMissingError`; an email rule with
both templates present that reaches the send step invokes exactly the
combined `send_email` operation, not `send_text_email` or
`send_html_email`. -/
theorem template_branch_selection (c : Config) :
    ((getStr c "templateHtml" = Option.none ∧ getStr c "templateText" = Option.none) →
      ∃ m, validate_email_configuration c
          = Except.error (DispatchError.configurationMissing m))
    ∧ (∀ v sep t s, validate_email_configuration c = Except.ok v →
        v.templateHtml ≠ Option.none → v.templateText ≠ Option.none →
        (fetch_alerts v.groups s).1 ≠ [] →
        (send_calls (process_email_configuration sep t c s).2.2).map SendCall.mode
          = [SendMode.send_email]) := by
  constructor
  · intro hboth
    cases hval : validate_email_configuration c with
    | error e =>
        obtain ⟨m, hm⟩ := validate_error_missing c e hval
        subst hm
        exact ⟨m, rfl⟩
    | ok v => exact absurd hboth (validate_ok_templates c v hval).2.2
  · intro v sep t s hv hh ht hne
    have hlen : 0 < ((fetch_alerts v.groups s).1).length := List.length_pos.mpr hne
    simp only [process_email_configuration, hv, hlen, if_true]
    rw [if_neg hh, if_neg ht]
    cases t <;> simp [send_calls, List.filterMap]

theorem template_branch_selection_witness :
    (send_calls (process_email_configuration "\n" SendOutcome.ok cfg1 store1).2.2).map
        SendCall.mode = [SendMode.send_email] :=
  (template_branch_selection cfg1).2 settings1 "\n" SendOutcome.ok store1 rfl
    (by simp [settings1]) (by simp [settings1])
    (by rw [show (fetch_alerts settings1.groups store1).1 = [alert1, alert2] from rfl]; simp)

/-- C6: `_process_configuration` checks the `type` field first: a rule
with `type` absent or not a string fails with
`ConfigurationMissingError`, and a rule whose `type` is a string other
than "email" fails with `ConfigurationInvalidError` naming that type —
in both cases regardless of every other field and with no store or
transport call. -/
theorem type_checked_first (sep : String) (t : SendOutcome) (c : Config) (s : List Alert) :
    (getStr c "type" = Option.none →
      process_configuration sep t c s
        = (Except.error (DispatchError.configurationMissing
            "Missing \"type\" for alert dispatch configuration"), s, []))
    ∧ (∀ ty, getStr c "type" = some ty → ty ≠ "email" →
      process_configuration sep t c s
        = (Except.error (DispatchError.configurationInvalid
            ("Invalid alert type \"" ++ ty ++ "\"")), s, [])) := by
  constructor
  · intro h
    simp [process_configuration, h]
  · intro ty h hne
    simp [process_configuration, h, hne]

/-- A rule mapping with no `type` key (but email-specific fields
present). -/
def cfg_no_type : Config :=
  [("smtp", Value.dict smtp1), ("subject", Value.str "Alerts")]

/-- A rule mapping whose `type` is the string "push". -/
def cfg_push_type : Config :=
  [("type", Value.str "push"), ("smtp", Value.dict smtp1)]

theorem type_checked_first_witness :
    process_configuration "\n" SendOutcome.ok cfg_no_type store1
      = (Except.error (DispatchError.configurationMissing
          "Missing \"type\" for alert dispatch configuration"), store1, [])
    ∧ process_configuration "\n" SendOutcome.ok cfg_push_type store1
      = (Except.error (DispatchError.configurationInvalid
          ("Invalid alert type \"" ++ "push" ++ "\"")), store1, []) :=
  ⟨(type_checked_first "\n" SendOutcome.ok cfg_no_type store1).1 rfl,
   (type_checked_first "\n" SendOutcome.ok cfg_push_type store1).2 "push" rfl
     (by decide)⟩

/-- C7: a valid email rule whose group fetch returns no alerts is a
no-op reported OK — no send, no requeue, no error, store unchanged —
and processing the same rule again on the resulting store gives the
same OK no-op (idempotence on an empty queue). -/
theorem empty_fetch_short_circuits (sep : String) (t : SendOutcome) (c : Config)
    (s : List Alert) (v : EmailSettings)
    (hv : validate_email_configuration c = Except.ok v)
    (he : (fetch_alerts v.groups s).1 = []) :
    process_email_configuration sep t c s = (Except.ok (), s, [Event.fetch v.groups []])
    ∧ process_email_configuration sep t c (process_email_configuration sep t c s).2.1
        = (Except.ok (), s, [Event.fetch v.groups []]) := by
  have he' : List.filter (fun a => group_member v.groups a.group) s = [] := he
  have hstore : List.filter (fun a => ! group_member v.groups a.group) s = s :=
    List.filter_eq_self.mpr (fun a ha => by
      have hna := List.filter_eq_nil_iff.mp he' a ha
      simp only [Bool.not_eq_true] at hna
      simp [hna])
  have h1 : process_email_configuration sep t c s
      = (Except.ok (), s, [Event.fetch v.groups []]) := by
    simp only [process_email_configuration, hv, fetch_alerts]
    simp [he', hstore]
  refine ⟨h1, ?_⟩
  rw [h1]
  exact h1

theorem empty_fetch_short_circuits_witness :
    process_email_configuration "\n" SendOutcome.ok cfg1 [alert3]
      = (Except.ok (), [alert3], [Event.fetch [Value.str "g1"] []])
    ∧ process_email_configuration "\n" SendOutcome.ok cfg1
        (process_email_configuration "\n" SendOutcome.ok cfg1 [alert3]).2.1
      = (Except.ok (), [alert3], [Event.fetch [Value.str "g1"] []]) :=
  empty_fetch_short_circuits "\n" SendOutcome.ok cfg1 [alert3] settings1 rfl rfl

/-- C8: for every non-empty fetched alert batch, the attachment content
handed to the transport send is exactly one line per fetched alert, in
fetch order, of the form `[<ISO-8601 timestamp>] <message>`, followed by
` | <data>` exactly when the alert's data is a non-empty mapping, each
line terminated by the platform line separator, with nothing else. -/
theorem attachment_line_format (sep : String) (t : SendOutcome) (c : Config)
    (s : List Alert) (v : EmailSettings)
    (hv : validate_email_configuration c = Except.ok v)
    (hne : (fetch_alerts v.groups s).1 ≠ []) :
    (send_calls (process_email_configuration sep t c s).2.2).map
        SendCall.attachment_content
      = [String.join (((fetch_alerts v.groups s).1).map (fun a =>
          "[" ++ a.date ++ "] " ++ a.message
            ++ (if data_is_nonempty_mapping a.data then " | " ++ pyRepr a.data else "")
            ++ sep))] := by
  have hlen : 0 < ((fetch_alerts v.groups s).1).length := List.length_pos.mpr hne
  have hlog : render_log sep ((fetch_alerts v.groups s).1)
      = String.join (((fetch_alerts v.groups s).1).map (fun a =>
          "[" ++ a.date ++ "] " ++ a.message
            ++ (if data_is_nonempty_mapping a.data then " | " ++ pyRepr a.data else "")
            ++ sep)) := by
    rw [render_log_eq_join]
    have hfun : (fun a : Alert => render_log_item a ++ sep)
        = fun a : Alert => "[" ++ a.date ++ "] " ++ a.message
            ++ (if data_is_nonempty_mapping a.data then " | " ++ pyRepr a.data else "")
            ++ sep := by
      funext a
      rw [render_log_item_eq]
      try simp [String.append_assoc]
    rw [hfun]
  simp only [process_email_configuration, hv, hlen, if_true]
  cases t <;> simp [send_calls, List.filterMap, hlog]

theorem attachment_line_format_witness :
    (send_calls (process_email_configuration "\n" SendOutcome.ok cfg1 store1).2.2).map
        SendCall.attachment_content
      = [String.join (((fetch_alerts settings1.groups store1).1).map (fun a =>
          "[" ++ a.date ++ "] " ++ a.message
            ++ (if data_is_nonempty_mapping a.data then " | " ++ pyRepr a.data else "")
            ++ "\n"))] :=
  attachment_line_format "\n" SendOutcome.ok cfg1 store1 settings1 rfl
    (by rw [show (fetch_alerts settings1.groups store1).1 = [alert1, alert2] from rfl]; simp)

/-- C9: for every non-empty fetched alert batch, the template variables
passed to the transport send map the key "alerts" to exactly the fetched
alert list — overwriting any configured value under that key — while
every other configured template variable is passed through unchanged. -/
theorem alerts_variable_injected (sep : String) (t : SendOutcome) (c : Config)
    (s : List Alert) (v : EmailSettings)
    (hv : validate_email_configuration c = Except.ok v)
    (hne : (fetch_alerts v.groups s).1 ≠ []) :
    ((send_calls (process_email_configuration sep t c s).2.2).map
        (fun call => lookup_key call.template_variables "alerts")
      = [some (TemplateValue.alertList (fetch_alerts v.groups s).1)])
    ∧ (∀ k, k ≠ "alerts" →
      (send_calls (process_email_configuration sep t c s).2.2).map
          (fun call => lookup_key call.template_variables k)
        = [(lookup_key v.templateVariables k).map TemplateValue.val]) := by
  have hlen : 0 < ((fetch_alerts v.groups s).1).length := List.length_pos.mpr hne
  constructor
  · simp only [process_email_configuration, hv, hlen, if_true]
    cases t <;> simp [send_calls, List.filterMap, lookup_set_key_self]
  · intro k hk
    simp only [process_email_configuration, hv, hlen, if_true]
    cases t <;>
      simp [send_calls, List.filterMap, lookup_set_key_other _ _ _ _ hk, lookup_map_val]

theorem alerts_variable_injected_witness :
    ((send_calls (process_email_configuration "\n" SendOutcome.ok cfg1 store1).2.2).map
        (fun call => lookup_key call.template_variables "alerts")
      = [some (TemplateValue.alertList (fetch_alerts settings1.groups store1).1)])
    ∧ (∀ k, k ≠ "alerts" →
      (send_calls (process_email_configuration "\n" SendOutcome.ok cfg1 store1).2.2).map
          (fun call => lookup_key call.template_variables k)
        = [(lookup_key settings1.templateVariables k).map TemplateValue.val]) :=
  alerts_variable_injected "\n" SendOutcome.ok cfg1 store1 settings1 rfl
    (by rw [show (fetch_alerts settings1.groups store1).1 = [alert1, alert2] from rfl]; simp)

/-- `_process_email_configuration` never ends in
`_DataAlreadyExistError`. -/
theorem process_email_not_exists (sep : String) (t : SendOutcome) (c : Config)
    (s : List Alert) :
    (process_email_configuration sep t c s).1
      ≠ Except.error DispatchError.dataAlreadyExist := by
  unfold process_email_configuration
  cases hval : validate_email_configuration c with
  | error e =>
      obtain ⟨m, hm⟩ := validate_error_missing c e hval
      subst hm
      simp
  | ok v =>
      by_cases hlen : 0 < ((fetch_alerts v.groups s).1).length <;>
        cases t <;> simp [hlen]

/-- C10: no code path raises `_DataAlreadyExistError`, so the EXISTS
branch of `run` is unreachable: `_process_configuration` never ends in
that error, and the outcome list of every completed run contains only
OK lines. -/
theorem exists_branch_unreachable (sep : String) (t : SendOutcome) :
    (∀ c s, (process_configuration sep t c s).1
        ≠ Except.error DispatchError.dataAlreadyExist)
    ∧ (∀ cs s outs s1, run_rules sep t cs s = Except.ok (outs, s1) →
        RuleOutcome.EXISTS ∉ outs) := by
  have hproc : ∀ c s, (process_configuration sep t c s).1
      ≠ Except.error DispatchError.dataAlreadyExist := by
    intro c s
    unfold process_configuration
    cases hty : getStr c "type" with
    | none => simp
    | some ty =>
        by_cases hety : ty = "email"
        · simp only [hety, if_true]
          exact process_email_not_exists sep t c s
        · simp [hety]
  refine ⟨hproc, ?_⟩
  intro cs
  induction cs with
  | nil =>
      intro s outs s1 h
      simp only [run_rules] at h
      injection h with h2
      injection h2 with h3 h4
      rw [← h3]
      simp
  | cons c rest ih =>
      intro s outs s1 h
      simp only [run_rules] at h
      split at h
      case _ u store2 ev heq =>
        split at h
        case _ outs2 store3 heq2 =>
          injection h with h2
          injection h2 with h3 h4
          rw [← h3]
          simp only [List.mem_cons, not_or]
          exact ⟨by decide, ih store2 outs2 store3 heq2⟩
        case _ e heq2 => injection h
      case _ store2 ev heq =>
        exact absurd (by rw [heq] : (process_configuration sep t c s).1
            = Except.error DispatchError.dataAlreadyExist) (hproc c s)
      case _ e store2 ev hne heq => injection h

theorem exists_branch_unreachable_witness :
    run_rules "\n" SendOutcome.ok [cfg1] [alert3]
        = Except.ok ([RuleOutcome.OK], [alert3])
    ∧ RuleOutcome.EXISTS ∉ [RuleOutcome.OK] :=
  ⟨rfl, (exists_branch_unreachable "\n" SendOutcome.ok).2 [cfg1] [alert3]
    [RuleOutcome.OK] [alert3] rfl⟩

end AlertingDispatcher
